import Mathlib

/-!
Verification of the outbound LLM request pipeline of `llm_chatbot_api`.

The development shallowly embeds the decision logic of the repository:

* `src/app/clients/llm.py` — `LLMClient.ask`: message building, request
  parameter assembly, the `tenacity` retry decorator configuration, and
  response validation/extraction;
* `src/app/main.py` — `ask_question`: the exception → HTTP status mapping;
* `src/app/schemas/question.py` — the `Question.text` length constraints;
* `src/app/settings.py` — `Settings.validate_base_url`.

Time-units, attempt counts and waits are modelled as naturals; fallible
steps return `Except`.
-/

namespace LLMChatbot

/-- The failure taxonomy of the spec (§7).  In the source each kind is
realised by a Python exception class: `TransportError` by
`openai.APIConnectionError`, `AuthenticationError` by
`openai.AuthenticationError`, `RateLimited` by `openai.RateLimitError`,
`ProviderInternalError` by `openai.InternalServerError`, `ProviderRejected`
by other `openai.APIStatusError` subclasses, `MalformedResponse` by the
parse failure of a 2xx body, and `EmptyChoices` / `EmptyContent` by the two
`ValueError`s raised in `src/app/clients/llm.py`. -/
inductive FailureKind where
  | TransportError
  | AuthenticationError
  | RateLimited
  | ProviderInternalError
  | ProviderRejected
  | MalformedResponse
  | EmptyChoices
  | EmptyContent
deriving DecidableEq, Repr

/-- `retry_if_exception_type((RateLimitError, InternalServerError))` from the
`@retry` decorator on `LLMClient.ask` (src/app/clients/llm.py): only the
kinds realised by `openai.RateLimitError` and `openai.InternalServerError`
trigger a retry. -/
def retryable : FailureKind → Bool
  | .RateLimited => true
  | .ProviderInternalError => true
  | _ => false

/-- `wait_exponential(multiplier=1, min=1, max=8)` from the `@retry`
decorator: after `attemptNumber` completed attempts the wait before the next
attempt is `max(max(0, min), min(multiplier * 2^(attemptNumber-1), max))`,
following tenacity's documented formula with the configured constants. -/
def wait_exponential (attemptNumber : Nat) : Nat :=
  max (max 0 1) (min (1 * 2 ^ (attemptNumber - 1)) 8)

/-- One attempt of the provider transport, indexed by the 1-based attempt
number: either the extracted raw answer or a classified failure. -/
def Transport : Type := Nat → Except FailureKind String

/-- The observable trace of one run of the retry executor: how many attempts
were made, the backoff waits applied (in order, one before each retry), and
the final outcome. -/
structure RetryTrace where
  attempts : Nat
  waits : List Nat
  result : Except FailureKind String
deriving Repr

/-- The retry loop of the `@retry(stop=stop_after_attempt(3), ...)` decorator
on `LLMClient.ask`, with the attempt budget made explicit: `remaining` is the
number of retries still allowed after the current attempt.  A successful
attempt ends the loop; a failure ends it unless its kind is `retryable` and
retries remain, in which case the tenacity wait for the just-completed
attempt number is recorded and the next attempt runs.  `reraise=True`: the
final failure is surfaced unchanged. -/
def retryLoop (transport : Transport) (attempt : Nat) (waits : List Nat) :
    Nat → RetryTrace
  | 0 =>
    match transport attempt with
    | .ok s => ⟨attempt, waits, .ok s⟩
    | .error k => ⟨attempt, waits, .error k⟩
  | remaining + 1 =>
    match transport attempt with
    | .ok s => ⟨attempt, waits, .ok s⟩
    | .error k =>
      if retryable k then
        retryLoop transport (attempt + 1) (waits ++ [wait_exponential attempt])
          remaining
      else ⟨attempt, waits, .error k⟩

/-- `LLMClient.ask`'s retry executor: `stop_after_attempt(3)` means the first
attempt plus at most 2 retries. -/
def llm_ask_retry (transport : Transport) : RetryTrace :=
  retryLoop transport 1 [] 2

/-- The configuration fields of `Settings` (src/app/settings.py) used by
`LLMClient.ask`.  `llm_max_tokens` and `llm_system_prompt` are `Optional` in
the source (`none` = unset); `llm_temperature` and `request_timeout` are
numeric and only ever copied, so they are modelled as rationals. -/
structure Settings where
  llm_base_url : String
  llm_model : String
  llm_api_key : String
  llm_max_tokens : Option Nat
  llm_temperature : Rat
  llm_system_prompt : Option String
  request_timeout : Rat
deriving Repr

/-- One `{"role": ..., "content": ...}` dict of the message list built in
`LLMClient.ask`. -/
structure ChatMsg where
  role : String
  content : String
deriving DecidableEq, Repr

/-- The message-building block of `LLMClient.ask` (src/app/clients/llm.py):
`messages = []`; `if self._settings.llm_system_prompt:` append the system
message (Python truthiness: a `None` or empty-string prompt is skipped);
then append the user message with the question as content. -/
def build_messages (s : Settings) (question : String) : List ChatMsg :=
  let messages : List ChatMsg :=
    match s.llm_system_prompt with
    | some p => if p = "" then [] else [{ role := "system", content := p }]
    | none => []
  messages ++ [{ role := "user", content := question }]

/-- The `create_params` dict of `LLMClient.ask`.  `max_tokens = none` models
the key being absent from the dict (the source only inserts the key when
`llm_max_tokens is not None`). -/
structure CreateParams where
  model : String
  messages : List ChatMsg
  temperature : Rat
  max_tokens : Option Nat
deriving Repr

/-- The request-parameter assembly of `LLMClient.ask`: `create_params` starts
with model, messages and temperature, and `max_tokens` is added only
when `self._settings.llm_max_tokens is not None`. -/
def build_create_params (s : Settings) (question : String) : CreateParams :=
  let base : CreateParams :=
    { model := s.llm_model
      messages := build_messages s question
      temperature := s.llm_temperature
      max_tokens := none }
  match s.llm_max_tokens with
  | some v => { base with max_tokens := some v }
  | none => base

/-- A provider chat message as validated by `LLMClient.ask`: `content` may be
absent (`None`) in the raw output. -/
structure ChatMessage where
  content : Option String
deriving DecidableEq, Repr

/-- One completion choice of the raw provider output; `message` itself may be
falsy (`None`), which the source checks with `not choice.message`. -/
structure Choice where
  message : Option ChatMessage
deriving DecidableEq, Repr

/-- Raw provider output: the list of completion choices. -/
structure ChatCompletion where
  choices : List Choice
deriving DecidableEq, Repr

/-- The response-validation block of `LLMClient.ask`:
`if not response.choices:` raise `ValueError("No response choices received
from LLM")` (kind `EmptyChoices`); then on the first choice,
`if not choice.message or not choice.message.content:` raise
`ValueError("Empty response received from LLM")` (kind `EmptyContent`;
Python truthiness makes both a `None` and an empty-string content falsy);
otherwise return `choice.message.content` unchanged. -/
def extract_answer (response : ChatCompletion) : Except FailureKind String :=
  match response.choices with
  | [] => .error .EmptyChoices
  | choice :: _ =>
    match choice.message with
    | none => .error .EmptyContent
    | some msg =>
      match msg.content with
      | none => .error .EmptyContent
      | some c => if c = "" then .error .EmptyContent else .ok c

/-- Which failure kinds surface to `ask_question` (src/app/main.py) as a
Python `ValueError`: `EmptyChoices` and `EmptyContent` are raised as
`ValueError` in `LLMClient.ask`; `MalformedResponse` (a 2xx body that fails
JSON parsing) surfaces as `json.JSONDecodeError`, a `ValueError` subclass.
The remaining kinds are `openai` exception classes
(`APIConnectionError`, `AuthenticationError`, `RateLimitError`,
`InternalServerError`, other `APIStatusError`), none of which subclasses
`ValueError`. -/
def raised_as_value_error : FailureKind → Bool
  | .EmptyChoices => true
  | .EmptyContent => true
  | .MalformedResponse => true
  | _ => false

/-- The `except` chain of `ask_question` (src/app/main.py, lines 175-202):
`AuthenticationError` → 401, `RateLimitError` → 429, `ValueError` → 502,
any other `Exception` → 500. -/
def ask_question_status (k : FailureKind) : Nat :=
  if k = .AuthenticationError then 401
  else if k = .RateLimited then 429
  else if raised_as_value_error k then 502
  else 500

/-- The pydantic constraint on `Question.text` (src/app/schemas/question.py):
`min_length=1, max_length=1024`, counted in characters. -/
def question_text_valid (text : String) : Bool :=
  1 ≤ text.length && text.length ≤ 1024

/-- The `POST /question` route: FastAPI validates the body against
`Question` before the handler runs; an invalid `text` yields a 422 response
and the handler — hence the LLM pipeline — is never invoked.  A pipeline
failure is mapped through the `except` chain of `ask_question`. -/
def route_post_question (pipeline : String → Except FailureKind String)
    (text : String) : Except Nat String :=
  if question_text_valid text then
    match pipeline text with
    | .ok answer => .ok answer
    | .error k => .error (ask_question_status k)
  else
    .error 422

/-- `Settings.validate_base_url` (src/app/settings.py): the URL must start
with `http://` or `https://` and end with `/v1`, else a `ValueError` with
the corresponding message rejects the configuration at load time. -/
def validate_base_url (v : String) : Except String String :=
  if !(v.startsWith "http://" || v.startsWith "https://") then
    .error "Base URL must start with http:// or https://"
  else if !(v.endsWith "/v1") then
    .error "Base URL should end with /v1 for OpenAI compatibility"
  else
    .ok v

/-- Concrete transport for the C1 witness: `RateLimited` on the first two
attempts, success on the third. -/
def transportRateLimitedTwice : Transport := fun n =>
  if n < 3 then .error .RateLimited else .ok "answer"

/-- Concrete transport for the C2 witness: `AuthenticationError` always. -/
def transportAuthError : Transport := fun _ => .error .AuthenticationError

/-- Concrete transport for the C3 witness: `ProviderInternalError` always. -/
def transportInternalError : Transport := fun _ =>
  .error .ProviderInternalError

/-- Concrete transport for the C4 witness: `RateLimited` always. -/
def transportRateLimited : Transport := fun _ => .error .RateLimited

/-- C1: against a transport failing with `RateLimited` on the first two
attempts and succeeding on the third, the retry executor makes exactly 3
attempts (its maximum), waits 1 then 2 time-units, and surfaces the success;
and exactly the kinds `RateLimited` and `ProviderInternalError` are
retryable. -/
theorem retry_rate_limited_twice_then_success (t : Transport) (s : String)
    (h1 : t 1 = .error .RateLimited) (h2 : t 2 = .error .RateLimited)
    (h3 : t 3 = .ok s) :
    llm_ask_retry t = ⟨3, [1, 2], .ok s⟩ ∧
      ∀ k, retryable k = true ↔
        (k = .RateLimited ∨ k = .ProviderInternalError) := by
  refine ⟨?_, fun k => by cases k <;> simp [retryable]⟩
  simp [llm_ask_retry, retryLoop, h1, h2, h3, retryable, wait_exponential]

theorem retry_rate_limited_twice_then_success_witness :
    llm_ask_retry transportRateLimitedTwice = ⟨3, [1, 2], .ok "answer"⟩ :=
  (retry_rate_limited_twice_then_success transportRateLimitedTwice "answer"
    rfl rfl rfl).1

/-- C2: against a transport failing with any non-retryable kind
(`AuthenticationError`, `TransportError`, `ProviderRejected` or
`MalformedResponse`) on the first attempt, the retry executor makes exactly
1 attempt, applies no wait, and surfaces that failure unchanged. -/
theorem retry_nonretryable_single_attempt (t : Transport) (k : FailureKind)
    (hk : k = .AuthenticationError ∨ k = .TransportError ∨
      k = .ProviderRejected ∨ k = .MalformedResponse)
    (h1 : t 1 = .error k) :
    llm_ask_retry t = ⟨1, [], .error k⟩ := by
  rcases hk with h | h | h | h <;> subst h <;>
    simp [llm_ask_retry, retryLoop, h1, retryable]

theorem retry_nonretryable_single_attempt_witness :
    llm_ask_retry transportAuthError = ⟨1, [], .error .AuthenticationError⟩ :=
  retry_nonretryable_single_attempt transportAuthError .AuthenticationError
    (Or.inl rfl) rfl

/-- C3: against a transport failing with `ProviderInternalError` on every
attempt, the retry executor makes exactly 3 attempts and the final result is
the last attempt's `ProviderInternalError` itself — no synthetic
retries-exhausted error exists in the trace. -/
theorem retry_exhausted_internal_error (t : Transport)
    (h : ∀ n, t n = .error .ProviderInternalError) :
    llm_ask_retry t = ⟨3, [1, 2], .error .ProviderInternalError⟩ := by
  simp [llm_ask_retry, retryLoop, h 1, h 2, h 3, retryable, wait_exponential]

theorem retry_exhausted_internal_error_witness :
    llm_ask_retry transportInternalError =
      ⟨3, [1, 2], .error .ProviderInternalError⟩ :=
  retry_exhausted_internal_error transportInternalError fun _ => rfl

/-- C4: for every retry attempt `k ≥ 1`, the wait applied before that retry
equals `min 8 (2^(k-1))` time-units, and on every run the waits applied are
exactly one per retry — the `i`-th recorded wait precedes attempt `i + 1` —
so no wait is applied before the first attempt. -/
theorem backoff_wait_formula (t : Transport) (k : Nat) (_hk : 1 ≤ k) :
    wait_exponential k = min 8 (2 ^ (k - 1)) ∧
      (llm_ask_retry t).waits =
        (List.range ((llm_ask_retry t).attempts - 1)).map
          fun i => wait_exponential (i + 1) := by
  constructor
  · have h1 : 1 ≤ 2 ^ (k - 1) := Nat.one_le_two_pow
    simp only [wait_exponential, one_mul]
    omega
  · rcases e1 : t 1 with k1 | s1
    · rcases hr1 : retryable k1
      · simp [llm_ask_retry, retryLoop, e1, hr1]
      · rcases e2 : t 2 with k2 | s2
        · rcases hr2 : retryable k2
          · simp [llm_ask_retry, retryLoop, e1, e2, hr1, hr2,
              List.range_succ]
          · rcases e3 : t 3 with k3 | s3 <;>
              simp [llm_ask_retry, retryLoop, e1, e2, e3, hr1, hr2,
                List.range_succ]
        · simp [llm_ask_retry, retryLoop, e1, e2, hr1, List.range_succ]
    · simp [llm_ask_retry, retryLoop, e1]

theorem backoff_wait_formula_witness :
    wait_exponential 1 = min 8 (2 ^ (1 - 1)) ∧
      (llm_ask_retry transportRateLimited).waits =
        (List.range ((llm_ask_retry transportRateLimited).attempts - 1)).map
          fun i => wait_exponential (i + 1) :=
  backoff_wait_formula transportRateLimited 1 (by decide)

/-- C5: the response extractor fails with `EmptyChoices` on an empty choices
list, fails with `EmptyContent` when the first choice's message content is
absent or the empty string, and otherwise returns the first choice's content
verbatim. -/
theorem extractor_classification (r : ChatCompletion) :
    (r.choices = [] → extract_answer r = .error .EmptyChoices) ∧
    (∀ c rest, r.choices = c :: rest →
      ((c.message.bind ChatMessage.content = none ∨
        c.message.bind ChatMessage.content = some "") →
        extract_answer r = .error .EmptyContent) ∧
      (∀ s, c.message.bind ChatMessage.content = some s → s ≠ "" →
        extract_answer r = .ok s)) := by
  constructor
  · intro h
    simp [extract_answer, h]
  · rintro ⟨m⟩ rest hc
    constructor
    · rintro (h | h) <;> rcases m with _ | ⟨_ | cont⟩ <;>
        simp_all [extract_answer]
    · intro s hs hne
      rcases m with _ | ⟨_ | cont⟩ <;> simp_all [extract_answer]

theorem extractor_classification_witness :
    extract_answer ⟨[]⟩ = .error .EmptyChoices :=
  (extractor_classification ⟨[]⟩).1 rfl

/-- Concrete configuration for witnesses: system prompt set and non-empty,
max tokens set. -/
def settingsWithPrompt : Settings :=
  { llm_base_url := "https://api.openai.com/v1"
    llm_model := "gpt-4o-mini"
    llm_api_key := "sk-test"
    llm_max_tokens := some 1000
    llm_temperature := 7 / 10
    llm_system_prompt := some "You are a helpful assistant."
    request_timeout := 30 }

/-- C6: the built message sequence is `[system?, user]`: with a set,
non-empty system prompt it is the two-element list starting with the system
message, otherwise (prompt absent or empty) it is the one-element list with
only the user message; the user message content is the question text. -/
theorem message_sequence_shape (s : Settings) (q : String) :
    (∀ p, s.llm_system_prompt = some p → p ≠ "" →
      build_messages s q =
        [{ role := "system", content := p },
         { role := "user", content := q }]) ∧
    ((s.llm_system_prompt = none ∨ s.llm_system_prompt = some "") →
      build_messages s q = [{ role := "user", content := q }]) := by
  constructor
  · intro p hp hne
    simp [build_messages, hp, hne]
  · rintro (h | h) <;> simp [build_messages, h]

theorem message_sequence_shape_witness :
    build_messages settingsWithPrompt "Hello" =
      [{ role := "system", content := "You are a helpful assistant." },
       { role := "user", content := "Hello" }] :=
  (message_sequence_shape settingsWithPrompt "Hello").1
    "You are a helpful assistant." rfl (by decide)

/-- C7: the outbound payload copies `model` and `temperature` verbatim from
the configuration; `max_tokens` is absent from the payload exactly when
`llm_max_tokens` is unset, and equals the configured value `v` exactly when
set. -/
theorem payload_fields (s : Settings) (q : String) :
    (build_create_params s q).model = s.llm_model ∧
    (build_create_params s q).temperature = s.llm_temperature ∧
    (s.llm_max_tokens = none → (build_create_params s q).max_tokens = none) ∧
    (∀ v, s.llm_max_tokens = some v →
      (build_create_params s q).max_tokens = some v) := by
  rcases h : s.llm_max_tokens with _ | v <;> simp [build_create_params, h]

theorem payload_fields_witness :
    (build_create_params settingsWithPrompt "Hello").max_tokens =
      some 1000 :=
  (payload_fields settingsWithPrompt "Hello").2.2.2 1000 rfl

/-- C8: the HTTP layer maps `AuthenticationError` to 401, `RateLimited` to
429, `MalformedResponse`, `EmptyChoices` and `EmptyContent` to 502, and the
remaining kinds (`TransportError`, `ProviderInternalError`,
`ProviderRejected`) to 500. -/
theorem http_status_mapping :
    ask_question_status .AuthenticationError = 401 ∧
    ask_question_status .RateLimited = 429 ∧
    ask_question_status .MalformedResponse = 502 ∧
    ask_question_status .EmptyChoices = 502 ∧
    ask_question_status .EmptyContent = 502 ∧
    ask_question_status .TransportError = 500 ∧
    ask_question_status .ProviderInternalError = 500 ∧
    ask_question_status .ProviderRejected = 500 := by
  decide

/-- C9: a question text passes the inbound validation exactly when its
length is between 1 and 1024 characters, and the empty question is rejected
with 422 before the pipeline runs — the route's outcome on `""` is the same
whatever the pipeline, which is therefore never invoked. -/
theorem question_length_validation :
    (∀ text, question_text_valid text = true ↔
      (1 ≤ text.length ∧ text.length ≤ 1024)) ∧
    (∀ pipeline, route_post_question pipeline "" = .error 422) := by
  constructor
  · intro text
    simp [question_text_valid]
  · intro pipeline
    rfl

/-- C10: configuration construction accepts a base URL exactly when it both
starts with `http://` or `https://` and ends with `/v1`; in particular any
URL not ending in `/v1` is rejected at load time. -/
theorem base_url_validation (v : String) :
    validate_base_url v = .ok v ↔
      ((v.startsWith "http://" || v.startsWith "https://") = true ∧
        v.endsWith "/v1" = true) := by
  unfold validate_base_url
  rcases h1 : v.startsWith "http://" || v.startsWith "https://" <;>
    rcases h2 : v.endsWith "/v1" <;> simp [h1, h2]

end LLMChatbot
